import Mathlib

/-
  Verification of the JARVIS fast capture streaming engine
  (src/backend/native_extensions/src/python_stream_bindings.cpp and the
  streaming-buffer spec it binds).

  The binding layer (stream_frame_to_dict, the get_frame / try_get_frame /
  get_all_frames lambdas, the frame-callback wrapper) is embedded directly
  from the C++ source.  The core engine (FrameBuffer, StatsTracker,
  CaptureStream, StreamManager internals) lives in fast_capture_stream.h,
  which is not part of the sources; those components are modelled from the
  specification, as marked on each definition.
-/

/-- A captured frame as exposed by the bindings (`StreamFrame`,
bindings lines 57-68): pixel geometry, format tag, per-stream sequence
number, timestamp, capture latency, GPU flag, memory accounting and the
byte payload. -/
structure StreamFrame where
  width : Nat
  height : Nat
  channels : Nat
  format : String
  frame_number : Nat
  timestamp : Nat
  capture_latency_us : Int
  gpu_accelerated : Bool
  memory_used : Nat
  data : List UInt8
deriving DecidableEq, Repr

/-- A Python value as produced by the binding layer.  Byte payloads carry a
`copied` flag recording whether the binding placed its own copy of the bytes
in the value (`py::bytes(...)` copies, and the numpy array is filled by
`memcpy`) or aliased external storage. -/
inductive PyValue where
  | nat (n : Nat)
  | int (n : Int)
  | str (s : String)
  | bool (b : Bool)
  | bytes (copied : Bool) (data : List UInt8)
  | array (copied : Bool) (shape : List Nat) (data : List UInt8)
deriving DecidableEq, Repr

/-- A Python dict with string keys; lookup finds the first binding. -/
abbrev PyDict := List (String × PyValue)

/-- Embedding of `stream_frame_to_dict` (bindings lines 20-47): the scalar
fields are stored under their names; if the format is `"raw"` and the payload
is non-empty, a numpy `uint8` array of shape `(height, width, channels)` is
filled with a `memcpy` copy of the payload and stored under `"image"`;
otherwise the payload is stored as a bytes object under `"image_data"`. -/
def stream_frame_to_dict (frame : StreamFrame) : PyDict :=
  let base : PyDict :=
    [("width", PyValue.nat frame.width),
     ("height", PyValue.nat frame.height),
     ("channels", PyValue.nat frame.channels),
     ("format", PyValue.str frame.format),
     ("frame_number", PyValue.nat frame.frame_number),
     ("timestamp", PyValue.nat frame.timestamp),
     ("capture_latency_us", PyValue.int frame.capture_latency_us),
     ("gpu_accelerated", PyValue.bool frame.gpu_accelerated),
     ("memory_used", PyValue.nat frame.memory_used)]
  if frame.format = "raw" ∧ frame.data ≠ [] then
    base ++ [("image",
      PyValue.array true [frame.height, frame.width, frame.channels] frame.data)]
  else
    base ++ [("image_data", PyValue.bytes true frame.data)]

/-- Stream configuration as exposed by the bindings (lines 71-90):
`max_buffer_size = 0` means unbounded, `drop_frames_on_overflow` selects the
drop-oldest overflow policy. -/
structure StreamConfig where
  target_fps : Nat
  max_buffer_size : Nat
  output_format : String
  jpeg_quality : Nat
  use_gpu_acceleration : Bool
  drop_frames_on_overflow : Bool
  capture_cursor : Bool
  capture_shadow : Bool
  resolution_scale : Rat
deriving DecidableEq, Repr

/-- A default configuration used for concrete scenarios. -/
def baseConfig : StreamConfig :=
  { target_fps := 60
    max_buffer_size := 0
    output_format := "raw"
    jpeg_quality := 85
    use_gpu_acceleration := false
    drop_frames_on_overflow := true
    capture_cursor := false
    capture_shadow := false
    resolution_scale := 1 }

/-- Modelled from the spec: the `FrameBuffer` component of
`fast_capture_stream.h` is not among the sources.  Per spec section 4.1 it is
a bounded queue of frames (oldest first) together with the production and
drop counters and the peak-occupancy statistic updated atomically with each
push decision. -/
structure FrameBuffer where
  max_buffer_size : Nat
  drop_frames_on_overflow : Bool
  frames : List StreamFrame
  total_frames : Nat
  dropped_frames : Nat
  peak_buffer_size : Nat
deriving DecidableEq, Repr

/-- The empty frame buffer configured from a `StreamConfig`. -/
def FrameBuffer.ofConfig (cfg : StreamConfig) : FrameBuffer :=
  { max_buffer_size := cfg.max_buffer_size
    drop_frames_on_overflow := cfg.drop_frames_on_overflow
    frames := []
    total_frames := 0
    dropped_frames := 0
    peak_buffer_size := 0 }

/-- Modelled from the spec (section 4.1, `push`): if capacity is unbounded
(`max_buffer_size = 0`) or there is room, the frame is appended; if bounded
and at capacity, drop-oldest evicts the single oldest buffered frame and
inserts the new one, while reject-new discards the incoming frame; either
overflow outcome increments the drop counter by one.  Every push counts as a
production event. -/
def FrameBuffer.push (b : FrameBuffer) (f : StreamFrame) : FrameBuffer :=
  if b.max_buffer_size = 0 ∨ b.frames.length < b.max_buffer_size then
    { b with frames := b.frames ++ [f]
             total_frames := b.total_frames + 1
             peak_buffer_size := max b.peak_buffer_size (b.frames.length + 1) }
  else if b.drop_frames_on_overflow then
    { b with frames := b.frames.tail ++ [f]
             total_frames := b.total_frames + 1
             dropped_frames := b.dropped_frames + 1
             peak_buffer_size := max b.peak_buffer_size b.frames.length }
  else
    { b with total_frames := b.total_frames + 1
             dropped_frames := b.dropped_frames + 1 }

/-- Push a whole production sequence, oldest first. -/
def FrameBuffer.pushAll (b : FrameBuffer) (fs : List StreamFrame) : FrameBuffer :=
  fs.foldl FrameBuffer.push b

/-- Modelled from the spec (section 4.1, `drain_all`): atomically removes and
returns every currently buffered frame in production order, leaving the
buffer empty. -/
def FrameBuffer.drain_all (b : FrameBuffer) : List StreamFrame × FrameBuffer :=
  (b.frames, { b with frames := [] })

/-- Modelled from the spec (section 4.1, `pop_latest`): returns the most
recently pushed buffered frame if any, evicting the stale frames up to and
including the one returned (the latest-frame consumption model of
section 5 under which every consumer path observes strictly increasing
sequence numbers); returns empty when nothing is buffered. -/
def FrameBuffer.popLatest (b : FrameBuffer) : Option StreamFrame × FrameBuffer :=
  match b.frames.getLast? with
  | none => (none, b)
  | some f => (some f, { b with frames := [] })

/-- A raw frame with sequence number `n`, used for concrete scenarios. -/
def mkRawFrame (n : Nat) : StreamFrame :=
  { width := 2
    height := 1
    channels := 4
    format := "raw"
    frame_number := n
    timestamp := n
    capture_latency_us := 1
    gpu_accelerated := false
    memory_used := 8
    data := [7, 7, 7, 7, 7, 7, 7, 7] }

/-- The configuration of the C1 scenario: `max_buffer_size = 3`,
drop-oldest policy. -/
def c1Config : StreamConfig :=
  { baseConfig with max_buffer_size := 3, drop_frames_on_overflow := true }

/-- Claim C1: for a FrameBuffer created with `max_buffer_size = 3` and the
drop-oldest overflow policy, after pushing frames numbered 1 through 5 in
order, `drain_all` returns exactly the frames numbered 3, 4, 5 in that
order, leaves the buffer empty, and the `dropped_frames` counter equals 2. -/
theorem frameBuffer_dropOldest_scenario :
    ((FrameBuffer.pushAll (FrameBuffer.ofConfig c1Config)
        ((List.range 5).map (fun i => mkRawFrame (i + 1)))).drain_all).1.map
          StreamFrame.frame_number = [3, 4, 5]
      ∧ ((FrameBuffer.pushAll (FrameBuffer.ofConfig c1Config)
          ((List.range 5).map (fun i => mkRawFrame (i + 1)))).drain_all).2.frames
            = []
      ∧ ((FrameBuffer.pushAll (FrameBuffer.ofConfig c1Config)
          ((List.range 5).map
            (fun i => mkRawFrame (i + 1)))).drain_all).2.dropped_frames = 2 := by
  decide

/-- Claim C9: `stream_frame_to_dict` stores an `"image"` numpy array of
shape `(height, width, channels)` holding a copy of the frame's bytes
exactly when the format is `"raw"` and the payload is non-empty; in every
other case it instead stores the payload as bytes under `"image_data"`, and
never both keys. -/
theorem stream_frame_to_dict_image_key (frame : StreamFrame) :
    ((stream_frame_to_dict frame).lookup "image"
        = some (PyValue.array true
            [frame.height, frame.width, frame.channels] frame.data)
      ↔ (frame.format = "raw" ∧ frame.data ≠ []))
    ∧ ((stream_frame_to_dict frame).lookup "image_data"
        = some (PyValue.bytes true frame.data)
      ↔ ¬ (frame.format = "raw" ∧ frame.data ≠ []))
    ∧ ¬ ((stream_frame_to_dict frame).lookup "image" ≠ none
          ∧ (stream_frame_to_dict frame).lookup "image_data" ≠ none) := by
  by_cases h : frame.format = "raw" ∧ frame.data ≠ [] <;>
    simp [stream_frame_to_dict, List.lookup, h]

/-- Modelled from the spec: the `StatsTracker` component of
`fast_capture_stream.h` is not among the sources.  Per spec section 4.2 it
keeps the byte count, the latency extrema and rolling average, and the
rolling FPS estimate. -/
structure StatsTracker where
  bytes_processed : Nat
  min_latency_ms : Rat
  max_latency_ms : Rat
  avg_latency_ms : Rat
  actual_fps : Rat
deriving DecidableEq, Repr

/-- The all-zero tracker. -/
def StatsTracker.zero : StatsTracker :=
  { bytes_processed := 0
    min_latency_ms := 0
    max_latency_ms := 0
    avg_latency_ms := 0
    actual_fps := 0 }

/-- Modelled from the spec: one `CaptureStream` (section 4.3) owns exactly
one FrameBuffer and one StatsTracker, plus the window id, configuration,
start time, and the active/inactive flag. -/
structure CaptureStream where
  window_id : Nat
  config : StreamConfig
  buffer : FrameBuffer
  tracker : StatsTracker
  stream_start_time : Nat
  active : Bool
deriving DecidableEq, Repr

/-- The statistics snapshot as exposed by the bindings (`StreamStats`,
lines 107-119). -/
structure StreamStats where
  total_frames : Nat
  dropped_frames : Nat
  actual_fps : Rat
  avg_latency_ms : Rat
  min_latency_ms : Rat
  max_latency_ms : Rat
  current_buffer_size : Nat
  peak_buffer_size : Nat
  bytes_processed : Nat
  stream_start_time : Nat
  is_active : Bool
deriving DecidableEq, Repr

/-- Modelled from the spec: `get_stats` takes a point-in-time snapshot of
the stream's counters, buffer occupancy and activity flag. -/
def CaptureStream.get_stats (s : CaptureStream) : StreamStats :=
  { total_frames := s.buffer.total_frames
    dropped_frames := s.buffer.dropped_frames
    actual_fps := s.tracker.actual_fps
    avg_latency_ms := s.tracker.avg_latency_ms
    min_latency_ms := s.tracker.min_latency_ms
    max_latency_ms := s.tracker.max_latency_ms
    current_buffer_size := s.buffer.frames.length
    peak_buffer_size := s.buffer.peak_buffer_size
    bytes_processed := s.tracker.bytes_processed
    stream_start_time := s.stream_start_time
    is_active := s.active }

/-- Modelled from the spec (section 4.2, `reset`): zeroes all counters and
extrema — production and drop counters, the latency extrema and average,
FPS, bytes processed and the peak occupancy — but must not alter the
active/inactive flag or stop the stream (buffer contents are frames, not
statistics, and stay). -/
def CaptureStream.reset_stats (s : CaptureStream) : CaptureStream :=
  { s with
    buffer := { s.buffer with
                  total_frames := 0
                  dropped_frames := 0
                  peak_buffer_size := 0 }
    tracker := StatsTracker.zero }

/-- A fresh inactive stream for a window under a configuration. -/
def CaptureStream.create (window_id : Nat) (cfg : StreamConfig) : CaptureStream :=
  { window_id := window_id
    config := cfg
    buffer := FrameBuffer.ofConfig cfg
    tracker := StatsTracker.zero
    stream_start_time := 0
    active := false }

/-- Claim C3 helper: pushing into an unbounded buffer never drops and adds
exactly one production event per frame. -/
theorem pushAll_unbounded (fs : List StreamFrame) :
    ∀ b : FrameBuffer, b.max_buffer_size = 0 →
      (b.pushAll fs).dropped_frames = b.dropped_frames
        ∧ (b.pushAll fs).total_frames = b.total_frames + fs.length
        ∧ (b.pushAll fs).max_buffer_size = 0 := by
  induction fs with
  | nil => intro b h; exact ⟨rfl, by simp [FrameBuffer.pushAll], h⟩
  | cons f rest ih =>
      intro b h
      have hstep : b.push f =
          { b with frames := b.frames ++ [f]
                   total_frames := b.total_frames + 1
                   peak_buffer_size := max b.peak_buffer_size (b.frames.length + 1) } := by
        simp [FrameBuffer.push, h]
      have hrec := ih (b.push f) (by rw [hstep]; exact h)
      have hall : b.pushAll (f :: rest) = (b.push f).pushAll rest := rfl
      rw [hall]
      refine ⟨?_, ?_, hrec.2.2⟩
      · rw [hrec.1, hstep]
      · rw [hrec.2.1, hstep]
        simp [Nat.add_assoc, Nat.add_comm 1 rest.length]

/-- Claim C3: for every sequence of pushes on a FrameBuffer configured with
unbounded capacity (`max_buffer_size = 0`), no frame is ever dropped:
`dropped_frames` stays 0 and `total_frames - dropped_frames` equals the
number of frames produced. -/
theorem unbounded_buffer_never_drops (cfg : StreamConfig) (fs : List StreamFrame)
    (h : cfg.max_buffer_size = 0) :
    ((FrameBuffer.ofConfig cfg).pushAll fs).dropped_frames = 0
      ∧ ((FrameBuffer.ofConfig cfg).pushAll fs).total_frames
          - ((FrameBuffer.ofConfig cfg).pushAll fs).dropped_frames = fs.length := by
  have h0 : (FrameBuffer.ofConfig cfg).max_buffer_size = 0 := h
  have hp := pushAll_unbounded fs (FrameBuffer.ofConfig cfg) h0
  refine ⟨hp.1, ?_⟩
  rw [hp.1, hp.2.1]
  simp [FrameBuffer.ofConfig]

/-- Witness for claim C3 at a concrete unbounded configuration and a
concrete production sequence. -/
theorem unbounded_buffer_never_drops_witness :
    baseConfig.max_buffer_size = 0
      ∧ (((FrameBuffer.ofConfig baseConfig).pushAll
            ((List.range 4).map mkRawFrame)).dropped_frames = 0
          ∧ ((FrameBuffer.ofConfig baseConfig).pushAll
                ((List.range 4).map mkRawFrame)).total_frames
              - ((FrameBuffer.ofConfig baseConfig).pushAll
                  ((List.range 4).map mkRawFrame)).dropped_frames
              = ((List.range 4).map mkRawFrame).length) :=
  ⟨by decide,
   unbounded_buffer_never_drops baseConfig ((List.range 4).map mkRawFrame) (by decide)⟩

/-- Claim C6: `reset_stats` zeroes every statistics counter and extremum
(total frames, dropped frames, latency minimum, average, maximum, FPS,
bytes processed, peak occupancy) while leaving the stream's active flag
unchanged and without stopping the stream: a stats query immediately after
the reset yields all-zero counters with `is_active` as it was before. -/
theorem reset_stats_zeroes_counters (s : CaptureStream) :
    (s.reset_stats.get_stats.total_frames = 0
      ∧ s.reset_stats.get_stats.dropped_frames = 0
      ∧ s.reset_stats.get_stats.min_latency_ms = 0
      ∧ s.reset_stats.get_stats.avg_latency_ms = 0
      ∧ s.reset_stats.get_stats.max_latency_ms = 0
      ∧ s.reset_stats.get_stats.actual_fps = 0
      ∧ s.reset_stats.get_stats.bytes_processed = 0
      ∧ s.reset_stats.get_stats.peak_buffer_size = 0)
    ∧ s.reset_stats.get_stats.is_active = s.get_stats.is_active
    ∧ s.reset_stats.active = s.active := by
  simp [CaptureStream.reset_stats, CaptureStream.get_stats, StatsTracker.zero]

/-- Modelled from the spec (section 4.1): the buffer contents visible to a
blocking fetch after waiting up to `timeout_ms`: with a zero timeout no new
frame can arrive during the wait; with a positive timeout the frames the
producer pushes during the wait window (`arrivals`) become visible. -/
def CaptureStream.buffer_within (s : CaptureStream) (timeout_ms : Nat)
    (arrivals : List StreamFrame) : FrameBuffer :=
  if timeout_ms = 0 then s.buffer else s.buffer.pushAll arrivals

/-- Modelled from the spec (`pop_latest_blocking`, section 4.1): returns the
most recently pushed frame if one becomes available within the timeout, else
an empty result — a timeout is not an error. -/
def CaptureStream.get_frame (s : CaptureStream) (timeout_ms : Nat)
    (arrivals : List StreamFrame) : Option StreamFrame × CaptureStream :=
  let r := (s.buffer_within timeout_ms arrivals).popLatest
  (r.1, { s with buffer := r.2 })

/-- Modelled from the spec (`pop_latest_nonblocking`, section 4.1): the same
operation with zero wait; returns empty immediately when nothing is
available. -/
def CaptureStream.try_get_frame (s : CaptureStream) :
    Option StreamFrame × CaptureStream :=
  let r := s.buffer.popLatest
  (r.1, { s with buffer := r.2 })

/-- Embedding of the `get_frame` binding lambda (bindings lines 146-152):
an available frame is converted with `stream_frame_to_dict`; an empty result
becomes Python `None`, not an exception. -/
def CaptureStream.get_frame_binding (s : CaptureStream) (timeout_ms : Nat)
    (arrivals : List StreamFrame) : Option PyDict :=
  match (s.get_frame timeout_ms arrivals).1 with
  | some f => some (stream_frame_to_dict f)
  | none => none

/-- Embedding of the `try_get_frame` binding lambda (bindings lines
155-161). -/
def CaptureStream.try_get_frame_binding (s : CaptureStream) : Option PyDict :=
  match s.try_get_frame.1 with
  | some f => some (stream_frame_to_dict f)
  | none => none

/-- Claim C8: `get_frame(timeout)` returns the most recently pushed frame if
one becomes available within the timeout, and on timeout returns an empty
result (`None` at the Python surface), not an error; `try_get_frame` behaves
identically with zero wait, returning empty immediately when no frame is
available. -/
theorem get_frame_timeout_behavior (s : CaptureStream) (timeout_ms : Nat)
    (arrivals : List StreamFrame) :
    (s.get_frame_binding timeout_ms arrivals = none
        ↔ (s.buffer_within timeout_ms arrivals).frames = [])
    ∧ (∀ f, (s.buffer_within timeout_ms arrivals).frames.getLast? = some f →
        s.get_frame_binding timeout_ms arrivals = some (stream_frame_to_dict f))
    ∧ (∀ a, s.get_frame 0 a = s.try_get_frame)
    ∧ s.try_get_frame_binding = s.get_frame_binding 0 [] := by
  refine ⟨?_, ?_, ?_, ?_⟩
  · unfold CaptureStream.get_frame_binding CaptureStream.get_frame
      FrameBuffer.popLatest
    cases hl : (s.buffer_within timeout_ms arrivals).frames.getLast? with
    | none => simpa [hl] using List.getLast?_eq_none_iff.mp hl
    | some f =>
        simp only [hl]
        constructor
        · intro hc; exact absurd hc (by simp)
        · intro hnil; rw [hnil] at hl; exact absurd hl (by simp)
  · intro f hf
    unfold CaptureStream.get_frame_binding CaptureStream.get_frame
      FrameBuffer.popLatest
    simp [hf]
  · intro a
    unfold CaptureStream.get_frame CaptureStream.try_get_frame
      CaptureStream.buffer_within
    simp
  · unfold CaptureStream.try_get_frame_binding CaptureStream.get_frame_binding
      CaptureStream.get_frame CaptureStream.try_get_frame
      CaptureStream.buffer_within
    simp

/-- Witness for claim C8 at a concrete stream holding two frames: the fetch
returns the most recently pushed frame, converted to a dict. -/
theorem get_frame_timeout_behavior_witness :
    ((CaptureStream.create 1 baseConfig).buffer_within 5
        [mkRawFrame 1, mkRawFrame 2]).frames.getLast? = some (mkRawFrame 2)
      ∧ (CaptureStream.create 1 baseConfig).get_frame_binding 5
          [mkRawFrame 1, mkRawFrame 2]
          = some (stream_frame_to_dict (mkRawFrame 2)) :=
  ⟨by decide,
   (get_frame_timeout_behavior (CaptureStream.create 1 baseConfig) 5
      [mkRawFrame 1, mkRawFrame 2]).2.1 (mkRawFrame 2) (by decide)⟩

/-- The error taxonomy of spec section 7. -/
inductive StreamError where
  | AlreadyActiveError
  | WindowUnavailableError
  | WindowNotFoundError
  | AmbiguousWindowError
  | UnknownStreamIdError
  | CapacityExceededError
deriving DecidableEq, Repr

/-- Modelled from the spec: the `StreamManager` (section 4.4) owns a registry
of CaptureStreams keyed by stream id, a concurrency cap, and a counter for
allocating fresh ids (ids are never reused within a manager's session). -/
structure StreamManager where
  streams : List (String × CaptureStream)
  max_concurrent_streams : Nat
  next_stream_id : Nat
deriving DecidableEq, Repr

/-- A fresh manager with a given concurrency cap. -/
def StreamManager.empty (cap : Nat) : StreamManager :=
  { streams := [], max_concurrent_streams := cap, next_stream_id := 0 }

/-- `get_active_stream_count` (bindings lines 254-255): the number of
registered live streams. -/
def StreamManager.get_active_stream_count (m : StreamManager) : Nat :=
  m.streams.length

/-- `get_active_stream_ids` (bindings lines 243-244): the registry keys. -/
def StreamManager.get_active_stream_ids (m : StreamManager) : List String :=
  m.streams.map Prod.fst

/-- Modelled from the spec (section 4.4, `create_stream`): fails with
`CapacityExceededError` if the live-stream count has reached the configured
maximum; otherwise allocates a fresh unique id, constructs and starts a
CaptureStream, registers it, and returns the id. -/
def StreamManager.create_stream (m : StreamManager) (window_id : Nat)
    (cfg : StreamConfig) : Except StreamError (String × StreamManager) :=
  if m.streams.length ≥ m.max_concurrent_streams then
    Except.error StreamError.CapacityExceededError
  else
    let id := "stream_" ++ toString m.next_stream_id
    let s := { CaptureStream.create window_id cfg with active := true }
    Except.ok (id,
      { m with streams := m.streams ++ [(id, s)]
               next_stream_id := m.next_stream_id + 1 })

/-- Modelled from the spec (section 4.4, `destroy_stream`): fails with
`UnknownStreamIdError` if the id is absent; otherwise stops and removes the
stream. -/
def StreamManager.destroy_stream (m : StreamManager) (id : String) :
    Except StreamError StreamManager :=
  if m.streams.any (fun kv => kv.1 = id) then
    Except.ok { m with streams := m.streams.filter (fun kv => ¬ kv.1 = id) }
  else
    Except.error StreamError.UnknownStreamIdError

/-- Modelled from the spec (section 4.4, `set_max_concurrent_streams`):
updates the cap and nothing else — no stream is stopped or destroyed, even
when the new cap is below the current live count. -/
def StreamManager.set_max_concurrent_streams (m : StreamManager) (mx : Nat) :
    StreamManager :=
  { m with max_concurrent_streams := mx }

/-- Modelled from the spec (section 4.4, `get_all_frames`): for every
currently active stream, attempt a bounded-timeout fetch with the same
shared timeout budget and keep an entry only for the streams that yielded a
frame.  `fetch id t` abstracts whether stream `id` yields a frame within a
wait of `t` milliseconds. -/
def StreamManager.get_all_frames (m : StreamManager) (timeout_ms : Nat)
    (fetch : String → Nat → Option StreamFrame) : List (String × StreamFrame) :=
  m.get_active_stream_ids.filterMap
    (fun id => (fetch id timeout_ms).map (fun f => (id, f)))

/-- The manager of the C4 scenario after `n` `create_stream` calls, keeping
the last error if any call failed. -/
def createStreamTimes (m : StreamManager) : Nat → Except StreamError StreamManager
  | 0 => Except.ok m
  | n + 1 =>
      match m.create_stream 1 baseConfig with
      | Except.ok r => createStreamTimes r.2 n
      | Except.error e => Except.error e

/-- The manager reached after four successful creations in the C4
scenario. -/
def c4Manager : StreamManager :=
  match createStreamTimes (StreamManager.empty 4) 4 with
  | Except.ok m => m
  | Except.error _ => StreamManager.empty 4

/-- Claim C4: when the live-stream count has already reached the configured
maximum, `create_stream` fails with `CapacityExceededError` and registers no
new stream; in particular, with `max_concurrent_streams = 4`, the fifth
consecutive `create_stream` call fails while the first four succeed, and
`get_active_stream_count` returns 4 after the first four calls. -/
theorem create_stream_capacity_exceeded (m : StreamManager) (w : Nat)
    (cfg : StreamConfig)
    (h : m.get_active_stream_count = m.max_concurrent_streams) :
    m.create_stream w cfg = Except.error StreamError.CapacityExceededError
    ∧ (∃ m4 : StreamManager,
        createStreamTimes (StreamManager.empty 4) 4 = Except.ok m4
          ∧ m4.get_active_stream_count = 4
          ∧ createStreamTimes (StreamManager.empty 4) 5
              = Except.error StreamError.CapacityExceededError) := by
  constructor
  · have hge : m.streams.length ≥ m.max_concurrent_streams := le_of_eq h.symm
    simp [StreamManager.create_stream, hge]
  · exact ⟨c4Manager, by rfl, by decide, by rfl⟩

/-- Witness for claim C4 at a concrete full manager. -/
theorem create_stream_capacity_exceeded_witness :
    ((StreamManager.empty 0).get_active_stream_count
        = (StreamManager.empty 0).max_concurrent_streams)
      ∧ (StreamManager.empty 0).create_stream 3 baseConfig
          = Except.error StreamError.CapacityExceededError :=
  ⟨by decide,
   (create_stream_capacity_exceeded (StreamManager.empty 0) 3 baseConfig (by decide)).1⟩

/-- Helper for claim C5: the entry a lookup finds for one stream id depends
only on that stream's own fetch outcome at the shared timeout, never on the
other streams' outcomes. -/
theorem lookup_fetch_independent (t : Nat)
    (fetch fetch2 : String → Nat → Option StreamFrame) (id : String)
    (h : fetch2 id t = fetch id t) :
    ∀ l : List String,
      (l.filterMap (fun a => (fetch2 a t).map (fun f => (a, f)))).lookup id
        = (l.filterMap (fun a => (fetch a t).map (fun f => (a, f)))).lookup id := by
  intro l
  induction l with
  | nil => rfl
  | cons a rest ih =>
      rw [List.filterMap_cons, List.filterMap_cons]
      by_cases hai : a = id
      · subst hai
        rw [h]
        cases hfa : fetch a t with
        | none => simpa using ih
        | some f => simp [List.lookup]
      · have hba : (id == a) = false := by
          simp [BEq.beq]
          exact fun hc => hai hc.symm
        cases hfa : fetch a t with
        | none =>
            cases hfb : fetch2 a t with
            | none => simpa using ih
            | some f => simpa [List.lookup, hba] using ih
        | some f =>
            cases hfb : fetch2 a t with
            | none => simpa [List.lookup, hba] using ih
            | some g => simpa [List.lookup, hba] using ih

/-- Claim C5: `StreamManager.get_all_frames(timeout)` returns a mapping that
has an entry exactly for the currently active streams that yielded a frame
within the shared timeout budget, and no entry for streams with no frame
available; and one stream's result is independent of every other stream's
fetch outcome (one stream's timeout never extends another's wait). -/
theorem manager_get_all_frames_domain (m : StreamManager) (t : Nat)
    (fetch : String → Nat → Option StreamFrame) :
    (∀ id f, (id, f) ∈ m.get_all_frames t fetch
        ↔ id ∈ m.get_active_stream_ids ∧ fetch id t = some f)
    ∧ (∀ fetch2 : String → Nat → Option StreamFrame, ∀ id : String,
        fetch2 id t = fetch id t →
          (m.get_all_frames t fetch2).lookup id
            = (m.get_all_frames t fetch).lookup id) := by
  constructor
  · intro id f
    simp only [StreamManager.get_all_frames, List.mem_filterMap,
      Option.map_eq_some']
    constructor
    · rintro ⟨a, ha, f0, hf0, heq⟩
      cases heq
      exact ⟨ha, hf0⟩
    · rintro ⟨hid, hf⟩
      exact ⟨id, hid, f, hf, rfl⟩
  · intro fetch2 id h
    exact lookup_fetch_independent t fetch fetch2 id h m.get_active_stream_ids

/-- The fetch environment of the C5 witness: only stream 0 has data ready
within the budget. -/
def c5fetch : String → Nat → Option StreamFrame :=
  fun id _ => if id = "stream_0" then some (mkRawFrame 3) else none

/-- A second fetch environment agreeing with `c5fetch` on stream 0 only. -/
def c5fetch2 : String → Nat → Option StreamFrame :=
  fun id _ => if id = "stream_0" then some (mkRawFrame 3) else some (mkRawFrame 9)

/-- Witness for claim C5: at a concrete manager, changing the other streams'
fetch outcomes leaves stream 0's entry unchanged. -/
theorem manager_get_all_frames_domain_witness :
    c5fetch2 "stream_0" 50 = c5fetch "stream_0" 50
      ∧ (c4Manager.get_all_frames 50 c5fetch2).lookup "stream_0"
          = (c4Manager.get_all_frames 50 c5fetch).lookup "stream_0" :=
  ⟨by decide,
   (manager_get_all_frames_domain c4Manager 50 c5fetch).2 c5fetch2 "stream_0"
     (by decide)⟩

/-- Claim C7: `set_max_concurrent_streams` updates the cap without stopping
or destroying any running stream, even when the new cap is below the current
live count: the registry and the live count are unchanged by the cap update;
afterwards `create_stream` fails while the live count is at or above the new
cap, and succeeds again once the live count is below it. -/
theorem set_max_concurrent_no_eviction (m : StreamManager) (k : Nat) :
    (m.set_max_concurrent_streams k).streams = m.streams
    ∧ (m.set_max_concurrent_streams k).get_active_stream_count
        = m.get_active_stream_count
    ∧ (∀ w cfg, k ≤ m.get_active_stream_count →
        (m.set_max_concurrent_streams k).create_stream w cfg
          = Except.error StreamError.CapacityExceededError)
    ∧ (∀ w cfg, m.get_active_stream_count < k →
        ∃ id m2,
          (m.set_max_concurrent_streams k).create_stream w cfg
              = Except.ok (id, m2)
            ∧ m2.get_active_stream_count = m.get_active_stream_count + 1) := by
  refine ⟨rfl, rfl, ?_, ?_⟩
  · intro w cfg hk
    have : m.streams.length ≥ k := hk
    simp [StreamManager.create_stream, StreamManager.set_max_concurrent_streams,
      this]
  · intro w cfg hk
    have hlt : ¬ m.streams.length ≥ k := Nat.not_le.mpr hk
    refine ⟨"stream_" ++ toString m.next_stream_id,
      { streams := m.streams ++ [("stream_" ++ toString m.next_stream_id,
          { CaptureStream.create w cfg with active := true })]
        max_concurrent_streams := k
        next_stream_id := m.next_stream_id + 1 }, ?_, ?_⟩
    · simp [StreamManager.create_stream, StreamManager.set_max_concurrent_streams,
        hlt]
    · simp [StreamManager.get_active_stream_count]

/-- Witness for claim C7: lowering the cap of a manager with four live
streams to 2 leaves the count at 4 and makes the next creation fail. -/
theorem set_max_concurrent_no_eviction_witness :
    (2 ≤ c4Manager.get_active_stream_count)
      ∧ (c4Manager.set_max_concurrent_streams 2).create_stream 9 baseConfig
          = Except.error StreamError.CapacityExceededError :=
  ⟨by decide,
   (set_max_concurrent_no_eviction c4Manager 2).2.2.1 9 baseConfig (by decide)⟩

/-- The observable actions of the wrapper that `set_frame_callback` installs
around a Python callback. -/
inductive CallbackAction where
  | acquire_gil
  | invoke (arg : PyDict)
deriving DecidableEq, Repr

/-- Embedding of the `set_frame_callback` binding lambda (bindings lines
91-97): the installed wrapper, run on the capture thread for each produced
frame, first acquires the Python GIL (`py::gil_scoped_acquire`) and then
invokes the Python callback with `stream_frame_to_dict(frame)`. -/
def frame_callback_wrapper (frame : StreamFrame) : List CallbackAction :=
  [CallbackAction.acquire_gil,
   CallbackAction.invoke (stream_frame_to_dict frame)]

/-- Whether a Python value owns a copy of its byte payload (scalar values
hold no payload and count as copies). -/
def PyValue.payload_copied : PyValue → Bool
  | PyValue.bytes c _ => c
  | PyValue.array c _ _ => c
  | _ => true

/-- Whether every value of a dict owns its byte payload, so that mutating
the dict cannot reach the storage of the originating frame. -/
def payloads_copied (d : PyDict) : Bool :=
  d.all (fun kv => kv.2.payload_copied)

/-- Helper for claim C10: every payload `stream_frame_to_dict` stores is its
own copy of the frame's bytes. -/
theorem stream_frame_to_dict_copies (frame : StreamFrame) :
    payloads_copied (stream_frame_to_dict frame) = true := by
  by_cases h : frame.format = "raw" ∧ frame.data ≠ [] <;>
    simp [stream_frame_to_dict, payloads_copied, PyValue.payload_copied, h]

/-- Claim C10: the wrapper installed by `set_frame_callback` invokes the
Python callback with `stream_frame_to_dict(frame)` — a fresh dict in which
every byte payload is the wrapper's own copy, so callback mutations of the
argument never reach the buffered StreamFrame's storage — and the GIL is
acquired before every invocation. -/
theorem frame_callback_gil_and_copy (frame : StreamFrame) :
    (∀ d, CallbackAction.invoke d ∈ frame_callback_wrapper frame →
        d = stream_frame_to_dict frame ∧ payloads_copied d = true)
    ∧ (∀ (i : Nat) (d : PyDict), (frame_callback_wrapper frame)[i]?
          = some (CallbackAction.invoke d) →
        ∃ j, j < i
          ∧ (frame_callback_wrapper frame)[j]?
              = some CallbackAction.acquire_gil) := by
  constructor
  · intro d hd
    simp only [frame_callback_wrapper, List.mem_cons, List.mem_singleton] at hd
    rcases hd with hd | hd | hd
    · exact absurd hd (by simp)
    · cases hd
      exact ⟨rfl, stream_frame_to_dict_copies frame⟩
    · exact absurd hd (by simp at hd)
  · intro i d hi
    match i with
    | 0 => exact absurd hi (by simp [frame_callback_wrapper])
    | 1 => exact ⟨0, Nat.zero_lt_one, rfl⟩
    | n + 2 => exact absurd hi (by simp [frame_callback_wrapper])

/-- Witness for claim C10 at a concrete frame. -/
theorem frame_callback_gil_and_copy_witness :
    (CallbackAction.invoke (stream_frame_to_dict (mkRawFrame 1))
        ∈ frame_callback_wrapper (mkRawFrame 1))
      ∧ (stream_frame_to_dict (mkRawFrame 1)
            = stream_frame_to_dict (mkRawFrame 1)
          ∧ payloads_copied (stream_frame_to_dict (mkRawFrame 1)) = true) :=
  ⟨by decide,
   (frame_callback_gil_and_copy (mkRawFrame 1)).1
     (stream_frame_to_dict (mkRawFrame 1)) (by decide)⟩

/-- A consumer-visible event on one stream's buffer: a producer push, a
`get_all_frames` drain, or a `get_frame` / `try_get_frame` latest-frame
fetch. -/
inductive BufEvent where
  | push (f : StreamFrame)
  | drain
  | pop_latest
deriving DecidableEq, Repr

/-- The frame pushed by an event, if it is a push. -/
def BufEvent.pushedFrame : BufEvent → Option StreamFrame
  | BufEvent.push f => some f
  | _ => none

/-- The production sequence of a trace: the pushed frames, oldest first. -/
def pushesOf (es : List BufEvent) : List StreamFrame :=
  es.filterMap BufEvent.pushedFrame

/-- A buffer together with its consumption history: `obs` is every frame
handed to a consumer (by drains and fetches), in observation order;
`pushed` is every produced frame in production order; `evicted` counts the
stale frames a latest-frame fetch skipped over. -/
structure BufTrace where
  buf : FrameBuffer
  obs : List StreamFrame
  pushed : List StreamFrame
  evicted : Nat
deriving DecidableEq, Repr

/-- One event of the producer/consumer interleaving, built from the
FrameBuffer operations. -/
def stepBuf (s : BufTrace) : BufEvent → BufTrace
  | BufEvent.push f =>
      { s with buf := s.buf.push f, pushed := s.pushed ++ [f] }
  | BufEvent.drain =>
      { s with buf := s.buf.drain_all.2, obs := s.obs ++ s.buf.drain_all.1 }
  | BufEvent.pop_latest =>
      { s with buf := s.buf.popLatest.2
               obs := s.obs ++ s.buf.popLatest.1.toList
               evicted := s.evicted
                 + (s.buf.frames.length - s.buf.popLatest.1.toList.length) }

/-- Run a whole event trace. -/
def runBuf (s : BufTrace) (es : List BufEvent) : BufTrace :=
  es.foldl stepBuf s

/-- The initial trace state for a configuration: empty buffer, nothing
observed, nothing produced. -/
def initTrace (cfg : StreamConfig) : BufTrace :=
  { buf := FrameBuffer.ofConfig cfg, obs := [], pushed := [], evicted := 0 }

/-- The inductive invariant behind claim C2: what was observed followed by
what is still buffered is a subsequence of the production sequence (so no
reordering and no duplication anywhere), and every produced frame is
accounted for as observed, still buffered, overflow-dropped, or skipped by a
latest-frame fetch. -/
def BufInv (s : BufTrace) : Prop :=
  (s.obs ++ s.buf.frames).Sublist s.pushed
    ∧ s.pushed.length
        = s.obs.length + s.buf.frames.length + s.buf.dropped_frames + s.evicted

/-- Helper: one push turns the buffered list into a subsequence of the old
buffered list with the new frame appended. -/
theorem push_frames_sublist (b : FrameBuffer) (f : StreamFrame) :
    ((b.push f).frames).Sublist (b.frames ++ [f]) := by
  unfold FrameBuffer.push
  split
  · exact List.Sublist.refl _
  · split
    · exact (List.tail_sublist b.frames).append (List.Sublist.refl [f])
    · exact List.sublist_append_left b.frames [f]

/-- Helper: one push adds exactly one frame to buffered-plus-dropped. -/
theorem push_count (b : FrameBuffer) (f : StreamFrame) :
    (b.push f).frames.length + (b.push f).dropped_frames
      = b.frames.length + b.dropped_frames + 1 := by
  unfold FrameBuffer.push
  split
  · simp only [List.length_append, List.length_singleton]
    omega
  · rename_i h1
    push_neg at h1
    have hlen : 1 ≤ b.frames.length := by omega
    split
    · simp only [List.length_append, List.length_singleton, List.length_tail]
      omega
    · simp only []
      omega

/-- Each event preserves the C2 invariant. -/
theorem stepBuf_inv (s : BufTrace) (e : BufEvent) (h : BufInv s) :
    BufInv (stepBuf s e) := by
  obtain ⟨hsub, hcount⟩ := h
  cases e with
  | push f =>
      constructor
      · show (s.obs ++ (s.buf.push f).frames).Sublist (s.pushed ++ [f])
        refine ((push_frames_sublist s.buf f).append_left s.obs).trans ?_
        rw [← List.append_assoc]
        exact hsub.append (List.Sublist.refl [f])
      · show (s.pushed ++ [f]).length
          = s.obs.length + (s.buf.push f).frames.length
            + (s.buf.push f).dropped_frames + s.evicted
        have hpc := push_count s.buf f
        simp only [List.length_append, List.length_singleton]
        omega
  | drain =>
      constructor
      · show ((s.obs ++ s.buf.frames) ++ []).Sublist s.pushed
        simpa using hsub
      · show s.pushed.length
          = (s.obs ++ s.buf.frames).length
            + ([] : List StreamFrame).length
            + s.buf.dropped_frames + s.evicted
        simp only [List.length_append, List.length_nil]
        omega
  | pop_latest =>
      cases hl : s.buf.frames.getLast? with
      | none =>
          have hnil : s.buf.frames = [] := List.getLast?_eq_none_iff.mp hl
          have hpop : s.buf.popLatest = (none, s.buf) := by
            simp [FrameBuffer.popLatest, hl]
          have h0 : s.buf.frames.length = 0 := by rw [hnil]; rfl
          constructor
          · show ((s.obs ++ s.buf.popLatest.1.toList)
                ++ (s.buf.popLatest.2).frames).Sublist s.pushed
            rw [hpop]
            simpa using hsub
          · show s.pushed.length
              = (s.obs ++ s.buf.popLatest.1.toList).length
                + (s.buf.popLatest.2).frames.length
                + (s.buf.popLatest.2).dropped_frames
                + (s.evicted
                    + (s.buf.frames.length - s.buf.popLatest.1.toList.length))
            rw [hpop]
            simp only [Option.toList_none, List.length_append, List.length_nil]
            omega
      | some f =>
          obtain ⟨ys, hys⟩ := List.getLast?_eq_some_iff.mp hl
          have hpop : s.buf.popLatest = (some f, { s.buf with frames := [] }) := by
            simp [FrameBuffer.popLatest, hl]
          have hmem : f ∈ s.buf.frames := by rw [hys]; simp
          have hlen : 1 ≤ s.buf.frames.length := by rw [hys]; simp
          constructor
          · show ((s.obs ++ s.buf.popLatest.1.toList)
                ++ (s.buf.popLatest.2).frames).Sublist s.pushed
            rw [hpop]
            simp only [Option.toList_some, List.append_nil]
            refine List.Sublist.trans ?_ hsub
            exact (List.singleton_sublist.mpr hmem).append_left s.obs
          · show s.pushed.length
              = (s.obs ++ s.buf.popLatest.1.toList).length
                + (s.buf.popLatest.2).frames.length
                + (s.buf.popLatest.2).dropped_frames
                + (s.evicted
                    + (s.buf.frames.length - s.buf.popLatest.1.toList.length))
            rw [hpop]
            simp only [Option.toList_some, List.length_append,
              List.length_singleton, List.length_nil]
            omega

/-- Running a trace preserves the C2 invariant. -/
theorem runBuf_inv (es : List BufEvent) :
    ∀ s : BufTrace, BufInv s → BufInv (runBuf s es) := by
  induction es with
  | nil => intro s h; exact h
  | cons e rest ih =>
      intro s h
      exact ih (stepBuf s e) (stepBuf_inv s e h)

/-- The production log of a run is the initial log followed by the pushed
frames of the trace. -/
theorem runBuf_pushed (es : List BufEvent) :
    ∀ s : BufTrace, (runBuf s es).pushed = s.pushed ++ pushesOf es := by
  induction es with
  | nil => intro s; simp [runBuf, pushesOf]
  | cons e rest ih =>
      intro s
      have hstep : (stepBuf s e).pushed
          = s.pushed ++ (BufEvent.pushedFrame e).toList := by
        cases e <;> simp [stepBuf, BufEvent.pushedFrame]
      have : runBuf s (e :: rest) = runBuf (stepBuf s e) rest := rfl
      rw [this, ih, hstep, List.append_assoc]
      cases e <;> simp [pushesOf, BufEvent.pushedFrame]

/-- Traces without latest-frame fetches skip no frame. -/
theorem runBuf_evicted (es : List BufEvent)
    (hnp : ∀ e ∈ es, e ≠ BufEvent.pop_latest) :
    ∀ s : BufTrace, (runBuf s es).evicted = s.evicted := by
  induction es with
  | nil => intro s; rfl
  | cons e rest ih =>
      intro s
      have he : e ≠ BufEvent.pop_latest := hnp e (List.mem_cons_self e rest)
      have hrest : ∀ x ∈ rest, x ≠ BufEvent.pop_latest := by
        intro x hx; exact hnp x (List.mem_cons_of_mem e hx)
      have hstep : (stepBuf s e).evicted = s.evicted := by
        cases e with
        | push f => rfl
        | drain => rfl
        | pop_latest => exact absurd rfl he
      have : runBuf s (e :: rest) = runBuf (stepBuf s e) rest := rfl
      rw [this, ih hrest, hstep]

/-- Claim C2: in every producer/consumer interleaving whose pushes carry
strictly increasing frame numbers, the sequence of frame numbers observed by
consumers — across `get_frame`, `try_get_frame` and `get_all_frames` — is
strictly increasing; the observed frames are a subsequence of the production
sequence (drains return frames in production order, no reordering at any
layer); every produced frame is accounted for as observed, still buffered,
overflow-dropped or skipped by a latest-frame fetch; and in drain-only
consumption no frame is skipped, so the observations have no gaps relative
to the non-dropped frames. -/
theorem frame_ordering_strictly_increasing (cfg : StreamConfig)
    (es : List BufEvent)
    (hmono : List.Pairwise (fun a b => a.frame_number < b.frame_number)
      (pushesOf es)) :
    List.Pairwise (· < ·)
        (((runBuf (initTrace cfg) es).obs).map StreamFrame.frame_number)
    ∧ ((runBuf (initTrace cfg) es).obs).Sublist (pushesOf es)
    ∧ (pushesOf es).length
        = (runBuf (initTrace cfg) es).obs.length
          + (runBuf (initTrace cfg) es).buf.frames.length
          + (runBuf (initTrace cfg) es).buf.dropped_frames
          + (runBuf (initTrace cfg) es).evicted
    ∧ ((∀ e ∈ es, e ≠ BufEvent.pop_latest) →
        (pushesOf es).length
          = (runBuf (initTrace cfg) es).obs.length
            + (runBuf (initTrace cfg) es).buf.frames.length
            + (runBuf (initTrace cfg) es).buf.dropped_frames) := by
  have hinit : BufInv (initTrace cfg) := by
    constructor <;> simp [initTrace, FrameBuffer.ofConfig]
  have hinv := runBuf_inv es (initTrace cfg) hinit
  have hp : (runBuf (initTrace cfg) es).pushed = pushesOf es := by
    simpa [initTrace] using runBuf_pushed es (initTrace cfg)
  obtain ⟨hsub, hcount⟩ := hinv
  rw [hp] at hsub hcount
  have hobs : ((runBuf (initTrace cfg) es).obs).Sublist (pushesOf es) :=
    (List.sublist_append_left _ _).trans hsub
  refine ⟨?_, hobs, hcount, ?_⟩
  · exact List.pairwise_map.mpr (List.Pairwise.sublist hobs hmono)
  · intro hnp
    have hev : (runBuf (initTrace cfg) es).evicted = 0 := by
      simpa [initTrace] using runBuf_evicted es hnp (initTrace cfg)
    omega

/-- Witness for claim C2 on a concrete bounded drop-oldest trace with a
fetch and a drain. -/
theorem frame_ordering_strictly_increasing_witness :
    List.Pairwise (fun a b => a.frame_number < b.frame_number)
        (pushesOf [BufEvent.push (mkRawFrame 1), BufEvent.push (mkRawFrame 2),
          BufEvent.push (mkRawFrame 3), BufEvent.pop_latest,
          BufEvent.push (mkRawFrame 4), BufEvent.drain])
      ∧ List.Pairwise (· < ·)
          (((runBuf (initTrace c1Config)
              [BufEvent.push (mkRawFrame 1), BufEvent.push (mkRawFrame 2),
                BufEvent.push (mkRawFrame 3), BufEvent.pop_latest,
                BufEvent.push (mkRawFrame 4), BufEvent.drain]).obs).map
            StreamFrame.frame_number) :=
  ⟨by decide,
   (frame_ordering_strictly_increasing c1Config
      [BufEvent.push (mkRawFrame 1), BufEvent.push (mkRawFrame 2),
        BufEvent.push (mkRawFrame 3), BufEvent.pop_latest,
        BufEvent.push (mkRawFrame 4), BufEvent.drain] (by decide)).1⟩
